import Mathlib

/-!
Shallow embedding of the payroll computation engine of the `hradmin-portal`
repository (`backend_python/services/payroll_agent.py` and the load/upload
path of `backend_python/services/payroll_service.py`), together with proofs
settling the specification claims about it.

Python `float` values are modelled as `Option ℚ`: `some q` is an ordinary
(finite) float and `none` is NaN.  Spreadsheet cells are modelled by `Cell`.
Python exceptions are modelled by the `PyError` type and fallible code
returns `Except PyError _`.
-/

namespace Payroll

/-- A Python float: `some q` is a finite value, `none` is NaN.
(Infinities never arise in the modelled code paths.) -/
abbrev PF := Option ℚ

/-- Embed a rational as a (finite) Python float. -/
def pNum (q : ℚ) : PF := some q

/-- A spreadsheet cell value as seen by the agent through pandas:
an integer, a float, NaN (missing cell), Python `None`, or a string. -/
inductive Cell where
  | int (n : ℤ)
  | num (q : ℚ)
  | nan
  | none_
  | str (s : String)
deriving DecidableEq

/-- Python exceptions raised by the modelled code. -/
inductive PyError where
  | keyError (key : String)
  | typeError (msg : String)
  | valueError (msg : String)
  | zeroDivisionError
deriving DecidableEq

/-- NaN-propagating float addition. -/
def padd (a b : PF) : PF :=
  match a, b with
  | some x, some y => some (x + y)
  | _, _ => none

/-- NaN-propagating float subtraction. -/
def psub (a b : PF) : PF :=
  match a, b with
  | some x, some y => some (x - y)
  | _, _ => none

/-- NaN-propagating float multiplication. -/
def pmul (a b : PF) : PF :=
  match a, b with
  | some x, some y => some (x * y)
  | _, _ => none

/-- Float division: raises `ZeroDivisionError` on a zero divisor
(as Python does, even for `nan / 0.0`); otherwise NaN propagates. -/
def pdivE (a b : PF) : Except PyError PF :=
  match b with
  | some y =>
    if y = 0 then .error .zeroDivisionError
    else match a with
      | some x => .ok (some (x / y))
      | none => .ok none
  | none => .ok none

/-- Division by a nonzero numeric literal (used for the `/ 30` in the
encashment formula, which can never raise). -/
def pdivC (a : PF) (c : ℚ) : PF := a.map (fun x => x / c)

/-- Python `<` on floats: any comparison involving NaN is `False`. -/
def plt (a b : PF) : Bool :=
  match a, b with
  | some x, some y => decide (x < y)
  | _, _ => false

/-- Python `<=` on floats: any comparison involving NaN is `False`. -/
def ple (a b : PF) : Bool :=
  match a, b with
  | some x, some y => decide (x ≤ y)
  | _, _ => false

/-- Python `min(a, b)`: returns `b` if `b < a`, else `a`
(hence `min(nan, x) = nan` and `min(x, nan) = x`). -/
def pmin (a b : PF) : PF := if plt b a then b else a

/-- Floor of a rational (`q.num` and `q.den` are coprime, `q.den > 0`,
so Euclidean division of the numerator by the denominator is the floor). -/
def ratFloor (q : ℚ) : ℤ := Int.ediv q.num (q.den : ℤ)

/-- Round a rational to the nearest integer, ties to even
(the rounding used by Python's `round`). -/
def roundHalfEven (q : ℚ) : ℤ :=
  let f := ratFloor q
  let r := q - (f : ℚ)
  if r < 1/2 then f
  else if 1/2 < r then f + 1
  else if Int.emod f 2 = 0 then f else f + 1

/-- Python `round(x, 2)` on a rational. -/
def round2 (q : ℚ) : ℚ := (roundHalfEven (q * 100) : ℚ) / 100

/-- Python `round(x, 1)` on a rational. -/
def round1 (q : ℚ) : ℚ := (roundHalfEven (q * 10) : ℚ) / 10

/-- Rounding `round(x, 2)` on a float; `round(nan, 2) = nan`. -/
def pround2 : PF → PF := Option.map round2

/-- Rounding `round(x, 1)` on a float; `round(nan, 1) = nan`. -/
def pround1 : PF → PF := Option.map round1

/-- Numeric value of a run of decimal digit characters. -/
def digitsVal (cs : List Char) : ℕ :=
  cs.foldl (fun a c => a * 10 + (c.toNat - 48)) 0

/-- Parse an unsigned decimal literal (`"12"`, `"12.5"`, `"12."`, `".5"`). -/
def parseUnsigned (cs : List Char) : Option ℚ :=
  let ip := cs.takeWhile Char.isDigit
  match cs.drop ip.length with
  | [] => if ip.isEmpty then none else some (digitsVal ip : ℚ)
  | '.' :: fr =>
    let fp := fr.takeWhile Char.isDigit
    if ¬ (fr.drop fp.length).isEmpty then none
    else if ip.isEmpty ∧ fp.isEmpty then none
    else some ((digitsVal ip : ℚ) + (digitsVal fp : ℚ) / (10 ^ fp.length : ℚ))
  | _ => none

/-- Strip leading and trailing whitespace from a character list. -/
def trimChars (cs : List Char) : List Char :=
  ((cs.dropWhile Char.isWhitespace).reverse.dropWhile Char.isWhitespace).reverse

/-- Models Python `float(s)` on a string for plain decimal literals
(optional sign, digits, optional fractional part; surrounding whitespace
is ignored).  Exponent, infinity and nan spellings are not modelled —
no modelled code path feeds them in.  `none` means `float` raises. -/
def parseFloat (s : String) : Option ℚ :=
  match trimChars s.toList with
  | '-' :: rest => (parseUnsigned rest).map Neg.neg
  | '+' :: rest => parseUnsigned rest
  | cs => parseUnsigned cs

/-- Models Python `int(s)` on a string: optional sign then decimal digits. -/
def parseInt (s : String) : Option ℤ :=
  let core : List Char → Option ℤ := fun cs =>
    if cs.isEmpty ∨ ¬ cs.all Char.isDigit then none
    else some (digitsVal cs : ℤ)
  match trimChars s.toList with
  | '-' :: rest => (core rest).map Neg.neg
  | '+' :: rest => core rest
  | cs => core cs

/-- Truncation toward zero, as Python `int()` applied to a float. -/
def ratTrunc (q : ℚ) : ℤ := if 0 ≤ q then ratFloor q else -(ratFloor (-q))

/-- Python `float(cell)`: floats and ints convert, NaN stays NaN,
`None` raises `TypeError`, a string is parsed or raises `ValueError`. -/
def pyFloat (c : Cell) : Except PyError PF :=
  match c with
  | .int n => .ok (some (n : ℚ))
  | .num q => .ok (some q)
  | .nan => .ok none
  | .none_ => .error (.typeError "float() argument must be a string or a real number, not NoneType")
  | .str s =>
    match parseFloat s with
    | some q => .ok (some q)
    | none => .error (.valueError ("could not convert string to float: " ++ s))

/-- Python `int(cell)`: ints pass through, floats truncate toward zero,
NaN and `None` raise, strings parse as integers or raise. -/
def pyInt (c : Cell) : Except PyError ℤ :=
  match c with
  | .int n => .ok n
  | .num q => .ok (ratTrunc q)
  | .nan => .error (.valueError "cannot convert float NaN to integer")
  | .none_ => .error (.typeError "int() argument must be a string or a real number, not NoneType")
  | .str s =>
    match parseInt s with
    | some n => .ok n
    | none => .error (.valueError ("invalid literal for int() with base 10: " ++ s))

/-- Is `needle` a contiguous sublist of the list? -/
def listContains (needle : List Char) : List Char → Bool
  | [] => needle.isEmpty
  | c :: rest => needle.isPrefixOf (c :: rest) || listContains needle rest

/-- Python `sub in hay` on strings (substring test). -/
def strContains (hay sub : String) : Bool :=
  listContains sub.toList hay.toList

/-- Python `s.lower()`, character by character (the inputs of the modelled
code are ASCII, where this agrees with Python). -/
def strLower (s : String) : String :=
  String.mk (s.toList.map Char.toLower)

/-- A spreadsheet row as pandas presents it to the agent: the ordered list
of (column label, cell value) pairs. -/
abbrev Row := List (String × Cell)

/-- Models `any(k.lower() in str(col).lower() for k in col_keywords)` —
does any keyword occur case-insensitively inside the column label? -/
def labelMatches (kws : List String) (l : String) : Bool :=
  kws.any (fun k => strContains (strLower l) (strLower k))

/-- The column resolver `get` of `PayrollAgent.calculate_payroll`
(lines 87–91): scan the row's columns in order and return the value of
the first column whose label contains some keyword case-insensitively;
return `default` when no column matches. -/
def resolve (row : Row) (kws : List String) (default : Cell) : Cell :=
  match row with
  | [] => default
  | (l, v) :: rest => if labelMatches kws l then v else resolve rest kws default

/-- The first matching cell, if any (the `return emp_row[col]` case). -/
def findCol (row : Row) (kws : List String) : Option Cell :=
  match row with
  | [] => Option.none
  | (l, v) :: rest => if labelMatches kws l then some v else findCol rest kws

/-- A numeric caller `float(get(kws, default))`: the matched cell is
coerced by `float()` (which may raise); with no match the default —
itself already a number — is returned. -/
def getFloat (row : Row) (kws : List String) (default : PF) : Except PyError PF :=
  match findCol row kws with
  | some c => pyFloat c
  | Option.none => .ok default

/-- The integer caller `int(get(kws, 31))` for `days_in_month`. -/
def getIntD (row : Row) (kws : List String) (default : ℤ) : Except PyError ℤ :=
  match findCol row kws with
  | some c => pyInt c
  | Option.none => .ok default

/-- The agent's policy dictionary `self.policies` (`PayrollAgent.__init__`,
lines 24–32). -/
structure Policies where
  pf_rate : ℚ
  pf_cap : ℚ
  esi_employee_rate : ℚ
  esi_threshold : ℚ
  pt_amount : ℚ
  leave_encashment : Bool
  encash_max_days : ℚ
deriving DecidableEq

/-- The default policies set in `PayrollAgent.__init__`. -/
def defaultPolicies : Policies :=
  { pf_rate := 12/100
    pf_cap := 1800
    esi_employee_rate := 75/10000
    esi_threshold := 21000
    pt_amount := 200
    leave_encashment := false
    encash_max_days := 10 }

/-- Attempt the regex `pf cap\s*(\d+)` at the head of the character list:
literal `pf cap`, then optional whitespace, then at least one digit
(a maximal digit run, as the regex `\d+` is greedy). -/
def pfCapAt (cs : List Char) : Option ℕ :=
  if "pf cap".toList.isPrefixOf cs then
    let rest := (cs.drop 6).dropWhile Char.isWhitespace
    let ds := rest.takeWhile Char.isDigit
    if ds.isEmpty then Option.none else some (digitsVal ds)
  else Option.none

/-- Models `re.search` of `pf cap\s*(\d+)`: the match at the leftmost
starting position wins. -/
def searchPfCap : List Char → Option ℕ
  | [] => Option.none
  | c :: cs =>
    match pfCapAt (c :: cs) with
    | some n => some n
    | Option.none => searchPfCap cs

/-- Models `PayrollAgent.update_policy` (lines 67–76): lowercase the note text;
`"encash"`/`"leave encashment"` turn leave encashment on, `"pt 250"` sets
the professional tax amount to 250, and a `pf cap <int>` match overrides
the provident-fund cap. -/
def update_policy (p : Policies) (policy_text : String) : Policies :=
  let text := strLower policy_text
  let p1 :=
    if strContains text "encash" || strContains text "leave encashment" then
      { p with leave_encashment := true }
    else p
  let p2 := if strContains text "pt 250" then { p1 with pt_amount := 250 } else p1
  match searchPfCap text.toList with
  | some n => { p2 with pf_cap := (n : ℚ) }
  | Option.none => p2

/-- Python `str(x)` for a cell value.  For a non-integral float the rendering is a
placeholder (`num/den`): Python's decimal float repr is not reproduced, and
no modelled code path depends on it. -/
def cellPyStr (c : Cell) : String :=
  match c with
  | .int n => toString n
  | .num q => if q.den = 1 then toString q.num ++ ".0" else toString q.num ++ "/" ++ toString q.den
  | .nan => "nan"
  | .none_ => "None"
  | .str s => s

/-- One element of `str(row.values)` for an object-dtype row: numpy renders
string elements with quotes. -/
def cellNpStr (c : Cell) : String :=
  match c with
  | .str s => "'" ++ s ++ "'"
  | c => cellPyStr c

/-- Models `str(r.values)` for a row: the cell renderings, space-separated
inside brackets (numpy's object-array rendering). -/
def rowValuesStr (r : Row) : String :=
  "[" ++ String.intercalate " " (r.map (fun p => cellNpStr p.2)) ++ "]"

/-- The substring test used by the attendance matcher and the salary-row
lookup: `needle.lower() in str(r.values).lower()`. -/
def rowMatches (needle : String) (r : Row) : Bool :=
  strContains (strLower (rowValuesStr r)) (strLower needle)

/-- The computed payroll record returned by `calculate_payroll`
(lines 134–155).  Day counts are rounded to 1 decimal place and amounts
to 2, exactly as in the returned dict. -/
structure PayrollResult where
  emp_id : String
  name : String
  designation : String
  month : String
  present_days : PF
  approved_paid_leaves : PF
  lop_days : PF
  payable_days : PF
  remaining_leaves : PF
  basic_da : PF
  hra : PF
  other_allow : PF
  gross : PF
  pf : PF
  esi : PF
  pt : PF
  tds : PF
  encashment : PF
  total_deductions : PF
  net_pay : PF
deriving DecidableEq

/-- The deduction core of `calculate_payroll` (lines 120–155): payable
days, prorated gross, PF / ESI / PT / TDS deductions, optional leave
encashment, and net pay, assembled into the result record.  `month` stands
for `datetime.now().strftime("%B %Y")`, passed explicitly to keep the
function pure. -/
def calcCore (name empId desig month : String)
    (basic_da hra other_allow gross_salary : PF) (days_in_month : ℤ)
    (tds present_days approved_paid_leaves lop_days remaining_leaves : PF)
    (pol : Policies) : Except PyError PayrollResult :=
  match pdivE gross_salary (pNum (days_in_month : ℚ)) with
  | .error e => .error e
  | .ok gd =>
  let payable_days := padd present_days approved_paid_leaves
  let prorated_gross := pmul gd payable_days
  let pf := pmin (pmul basic_da (pNum pol.pf_rate)) (pNum pol.pf_cap)
  let esi := if ple prorated_gross (pNum pol.esi_threshold)
             then pmul prorated_gross (pNum pol.esi_employee_rate) else pNum 0
  let pt := if plt (pNum 15000) prorated_gross then pNum pol.pt_amount else pNum 0
  let total_deductions := padd (padd (padd pf esi) pt) tds
  let encashment :=
    if pol.leave_encashment && plt (pNum 0) remaining_leaves then
      pmul (pdivC (padd basic_da hra) 30) (pmin remaining_leaves (pNum pol.encash_max_days))
    else pNum 0
  let net_pay := padd (psub prorated_gross total_deductions) encashment
  .ok { emp_id := empId, name := name, designation := desig, month := month,
        present_days := pround1 present_days,
        approved_paid_leaves := pround1 approved_paid_leaves,
        lop_days := pround1 lop_days,
        payable_days := pround1 payable_days,
        remaining_leaves := pround1 remaining_leaves,
        basic_da := pround2 basic_da,
        hra := pround2 hra,
        other_allow := pround2 other_allow,
        gross := pround2 prorated_gross,
        pf := pround2 pf,
        esi := pround2 esi,
        pt := pround2 pt,
        tds := pround2 tds,
        encashment := pround2 encashment,
        total_deductions := pround2 total_deductions,
        net_pay := pround2 net_pay }

/-- Models `PayrollAgent.calculate_payroll` (lines 85–155) on one salary row,
given the loaded attendance rows and the current policies.  Field
resolution uses the nested `get` (= `resolve`) with the source's keyword
lists and defaults; numeric fields go through `float()`/`int()`.

When the attendance table is non-empty and some attendance row contains
the employee id as a case-insensitive substring of its stringified values,
the source reaches `get(att, ['present', 'total present'], days_in_month)`
(line 115) — a call passing 3 positional arguments to the 2-parameter
nested `get` — and raises `TypeError`.  Otherwise the attendance fallback
(`present = days_in_month`, `approved_paid_leaves = 0`, `lop = 0`,
`remaining_leaves = 12`) feeds the deduction core. -/
def calculate_payroll (month : String) (pol : Policies) (attendance : List Row)
    (emp_row : Row) : Except PyError PayrollResult := do
  let nameC := resolve emp_row ["name"] (Cell.int 0)
  let empC := resolve emp_row ["code", "emp id", "e.code", "id"] (Cell.str "Unknown")
  let desigC := resolve emp_row ["designation", "role"] (Cell.int 0)
  let basic_da ← getFloat emp_row ["basic", "basic + da"] (pNum 0)
  let hra ← getFloat emp_row ["hra"] (pNum 0)
  let other_allow ← getFloat emp_row ["other allow", "allowance"] (pNum 0)
  let gross_salary ← getFloat emp_row ["gross", "monthly gross", "ctc"]
                       (padd (padd basic_da hra) other_allow)
  let days_in_month ← getIntD emp_row ["days in month", "month days"] 31
  let tds ← getFloat emp_row ["tds"] (pNum 0)
  let empId := cellPyStr empC
  if ¬ attendance.isEmpty ∧ attendance.any (rowMatches empId) then
    .error (.typeError "get() takes from 1 to 2 positional arguments but 3 were given")
  else
    calcCore (cellPyStr nameC) empId (cellPyStr desigC) month
      basic_da hra other_allow gross_salary days_in_month tds
      (pNum (days_in_month : ℚ)) (pNum 0) (pNum 0) (pNum 12) pol

/-- One sheet of an uploaded workbook: its name, its column labels (what
the `nrows=5` header probe sees), and its data rows. -/
structure Sheet where
  name : String
  header : List String
  rows : List Row
deriving DecidableEq

/-- Does the sheet qualify as salary data?  Line 46: some column label,
lowercased, is literally one of `basic`, `hra`, `gross`, `ctc`, `salary`. -/
def qualifiesSalary (s : Sheet) : Bool :=
  s.header.any (fun col => ["basic", "hra", "gross", "ctc", "salary"].contains (strLower col))

/-- Does the sheet name contain `atten` case-insensitively (line 51)? -/
def isAttendanceSheet (s : Sheet) : Bool :=
  strContains (strLower s.name) "atten"

/-- The unconditional assignment inside the scan loop: the accumulator is
overwritten by every qualifying sheet, so the last one wins. -/
def pickLast (p : Sheet → Bool) (sheets : List Sheet) : Option Sheet :=
  sheets.foldl (fun acc s => if p s then some s else acc) Option.none

/-- Is the cell missing data in pandas' sense (`NaN` or `None`)? -/
def isNa (c : Cell) : Bool :=
  match c with
  | .nan => true
  | .none_ => true
  | _ => false

/-- Models `df.dropna(how='all')`: drop the rows whose every cell is NA. -/
def dropAllNa (rows : List Row) : List Row :=
  rows.filter (fun r => ¬ r.all (fun p => isNa p.2))

/-- The body of `load_uploaded_excel` before its `except` clause
(lines 39–62): pick the salary and attendance sheets (last qualifying
sheet wins for each), raise `ValueError("No salary data found in uploaded
file.")` when no sheet qualifies as salary, and otherwise return the
cleaned salary rows and the cleaned attendance rows (an absent attendance
sheet yields an empty table). -/
def loadInner (wb : List Sheet) : Except PyError (List Row × List Row) :=
  match pickLast qualifiesSalary wb with
  | Option.none => .error (.valueError "No salary data found in uploaded file.")
  | some s =>
    let att := match pickLast isAttendanceSheet wb with
      | some a => dropAllNa a.rows
      | Option.none => []
    .ok (dropAllNa s.rows, att)

/-- The in-memory state of a `PayrollAgent` instance: the output
directory, the policies, and `self.data` (`none` until a successful load;
a successful load stores the salary rows and the attendance rows
together). -/
structure PayrollAgent where
  payslip_dir : String
  policies : Policies
  loaded : Option (List Row × List Row)
deriving DecidableEq

/-- A freshly constructed `PayrollAgent`: empty `data`, default policies. -/
def initAgent (dir : String) : PayrollAgent :=
  { payslip_dir := dir, policies := defaultPolicies, loaded := Option.none }

/-- Models `PayrollAgent.load_uploaded_excel` (lines 36–65): on success the
in-memory tables are replaced and `True` is returned; every exception is
caught, printed and turned into `False`, the state left unchanged. -/
def load_uploaded_excel (ag : PayrollAgent) (wb : List Sheet) : PayrollAgent × Bool :=
  match loadInner wb with
  | .ok t => ({ ag with loaded := some t }, true)
  | .error _ => (ag, false)

/-- The load step of `PayrollService.upload_excel` (lines 91–93 of
`payroll_service.py`): a `False` from the agent becomes a generic
`ValueError("Failed to load Excel file. Check format.")`. -/
def upload_excel_load (ag : PayrollAgent) (wb : List Sheet) : Except PyError PayrollAgent :=
  let (ag2, ok) := load_uploaded_excel ag wb
  if ok then .ok ag2 else .error (.valueError "Failed to load Excel file. Check format.")

/-- Python `s.replace(a, b)` for single-character pattern and
replacement. -/
def replaceChar (s : String) (a b : Char) : String :=
  String.mk (s.toList.map (fun c => if c = a then b else c))

/-- The payslip filename of `generate_payslip_pdf` (line 158):
`payslip_<emp_id>_<month with spaces replaced by underscores>.pdf`. -/
def payslipFilename (empId month : String) : String :=
  "payslip_" ++ empId ++ "_" ++ replaceChar month ' ' '_' ++ ".pdf"

/-- Models `os.path.join(self.payslip_dir, filename)` for a plain relative
filename under a directory path without a trailing separator. -/
def payslipPath (dir empId month : String) : String :=
  dir ++ "/" ++ payslipFilename empId month

/-- A file system as a write-shadowing association list from path to
document; the rendered document content is a deterministic function of the
payroll record, so it is modelled by the record itself. -/
abbrev FileSystem := List (String × PayrollResult)

/-- Look up the current content at a path (the most recent write wins). -/
def fsRead (fs : FileSystem) (p : String) : Option PayrollResult :=
  (fs.find? (fun e => e.1 == p)).map (fun e => e.2)

/-- Models `PayrollAgent.generate_payslip_pdf` (lines 157–191): compute the
deterministic path from the record's id and month, write (`pdf.output`
creates or overwrites) the rendered document there, and return the path. -/
def generate_payslip_pdf (dir : String) (data : PayrollResult) (fs : FileSystem) :
    String × FileSystem :=
  let path := payslipPath dir data.emp_id data.month
  (path, (path, data) :: fs)

/-- Models `PayrollAgent.generate_all_payslips` (lines 193–201): `KeyError
'salary'` when nothing was loaded; otherwise compute and render every
salary row in order, pairing each result with its pdf path. -/
def generate_all_payslips (month : String) (ag : PayrollAgent) :
    Except PyError (List (PayrollResult × String)) :=
  match ag.loaded with
  | Option.none => .error (.keyError "salary")
  | some (sal, att) =>
    sal.mapM (fun r => do
      let payroll ← calculate_payroll month ag.policies att r
      return (payroll, payslipPath ag.payslip_dir payroll.emp_id payroll.month))

/-- Models `PayrollAgent.generate_single_payslip` (lines 203–210): `KeyError
'salary'` when nothing was loaded; otherwise the first salary row whose
stringified values contain the requested id (case-insensitively), a
`ValueError("Employee not found")` when none does. -/
def generate_single_payslip (month : String) (ag : PayrollAgent) (emp_id : String) :
    Except PyError (PayrollResult × String) :=
  match ag.loaded with
  | Option.none => .error (.keyError "salary")
  | some (sal, att) =>
    match sal.filter (rowMatches emp_id) with
    | [] => .error (.valueError "Employee not found")
    | r :: _ => do
      let payroll ← calculate_payroll month ag.policies att r
      return (payroll, payslipPath ag.payslip_dir payroll.emp_id payroll.month)

/-! ### Helper lemmas -/

/-- The resolver is the first-match lookup with a default. -/
theorem resolve_eq_findCol (row : Row) (kws : List String) (d : Cell) :
    resolve row kws d = (findCol row kws).getD d := by
  induction row with
  | nil => rfl
  | cons hd tl ih =>
    obtain ⟨l, v⟩ := hd
    by_cases h : labelMatches kws l
    · simp [resolve, findCol, h]
    · simp [resolve, findCol, h, ih]

/-- When no column label matches, the lookup finds nothing. -/
theorem findCol_no_match (row : Row) (kws : List String)
    (h : ∀ p ∈ row, labelMatches kws p.1 = false) : findCol row kws = Option.none := by
  induction row with
  | nil => rfl
  | cons hd tl ih =>
    have hhd := h hd (List.mem_cons_self hd tl)
    simp only [findCol, hhd, Bool.false_eq_true, if_false]
    exact ih (fun p hp => h p (List.mem_cons_of_mem hd hp))

/-- The first matching column's value is found when everything before it
fails to match. -/
theorem findCol_first (pre : Row) (l : String) (v : Cell) (post : Row)
    (kws : List String) (hpre : ∀ p ∈ pre, labelMatches kws p.1 = false)
    (hl : labelMatches kws l = true) :
    findCol (pre ++ (l, v) :: post) kws = some v := by
  induction pre with
  | nil => simp [findCol, hl]
  | cons hd tl ih =>
    have hhd := hpre hd (List.mem_cons_self hd tl)
    simp only [List.cons_append, findCol, hhd, Bool.false_eq_true, if_false]
    exact ih (fun p hp => hpre p (List.mem_cons_of_mem hd hp))

/-- An overwrite-in-a-scan fold keeps the last accepted element. -/
theorem foldl_pick_eq (p : Sheet → Bool) :
    ∀ (l : List Sheet) (init : Option Sheet),
      l.foldl (fun acc s => if p s then some s else acc) init
        = (l.reverse.find? p).elim init some := by
  intro l
  induction l with
  | nil => intro init; rfl
  | cons x xs ih =>
    intro init
    simp only [List.foldl_cons, ih, List.reverse_cons, List.find?_append]
    cases hxs : xs.reverse.find? p with
    | none =>
      simp only [Option.none_or]
      by_cases hx : p x <;> simp [List.find?, hx]
    | some y => simp [Option.or]

/-- The sheet scan selects the last qualifying sheet. -/
theorem pickLast_eq_last (p : Sheet → Bool) (l : List Sheet) :
    pickLast p l = l.reverse.find? p := by
  rw [pickLast, foldl_pick_eq]
  cases l.reverse.find? p <;> rfl

/-- Unfolding lemma for `pNum`. -/
theorem pNum_def (q : ℚ) : pNum q = some q := rfl

/-- Addition of finite floats. -/
theorem padd_some (x y : ℚ) : padd (some x) (some y) = some (x + y) := rfl

/-- Subtraction of finite floats. -/
theorem psub_some (x y : ℚ) : psub (some x) (some y) = some (x - y) := rfl

/-- Multiplication of finite floats. -/
theorem pmul_some (x y : ℚ) : pmul (some x) (some y) = some (x * y) := rfl

/-- Division of a finite float by a nonzero literal. -/
theorem pdivC_some (x c : ℚ) : pdivC (some x) c = some (x / c) := rfl

/-- Comparison `<` on finite floats. -/
theorem plt_some (x y : ℚ) : plt (some x) (some y) = decide (x < y) := rfl

/-- Comparison `<=` on finite floats. -/
theorem ple_some (x y : ℚ) : ple (some x) (some y) = decide (x ≤ y) := rfl

/-- Rounding a finite float. -/
theorem pround2_some (x : ℚ) : pround2 (some x) = some (round2 x) := rfl

/-- Rounding a finite float. -/
theorem pround1_some (x : ℚ) : pround1 (some x) = some (round1 x) := rfl

/-- Python `min` on finite floats. -/
theorem pmin_some (x y : ℚ) : pmin (some x) (some y) = some (if y < x then y else x) := by
  simp only [pmin, plt_some]
  by_cases h : y < x <;> simp [h]

/-- Division of finite floats with a nonzero divisor succeeds. -/
theorem pdivE_some (x y : ℚ) (h : y ≠ 0) : pdivE (some x) (some y) = .ok (some (x / y)) := by
  simp [pdivE, h]

/-- Floor of an integer is that integer. -/
theorem ratFloor_intCast (n : ℤ) : ratFloor (n : ℚ) = n := by
  rw [ratFloor, Rat.num_intCast, Rat.den_intCast, Nat.cast_one]
  exact Int.ediv_one n

/-- Half-even rounding of an integer is that integer. -/
theorem roundHalfEven_intCast (n : ℤ) : roundHalfEven (n : ℚ) = n := by
  simp only [roundHalfEven, ratFloor_intCast]
  norm_num

/-- Evaluate `round2` when the scaled value is an integer. -/
theorem round2_eq (x : ℚ) (n : ℤ) (h : x * 100 = (n : ℚ)) : round2 x = (n : ℚ) / 100 := by
  rw [round2, h, roundHalfEven_intCast]

/-- Evaluate `round1` when the scaled value is an integer. -/
theorem round1_eq (x : ℚ) (n : ℤ) (h : x * 10 = (n : ℚ)) : round1 x = (n : ℚ) / 10 := by
  rw [round1, h, roundHalfEven_intCast]

/-- Rounding `round2` fixes integers. -/
theorem round2_intCast (n : ℤ) : round2 ((n : ℚ)) = (n : ℚ) := by
  rw [round2_eq ((n : ℚ)) (n * 100) (by push_cast; ring)]
  push_cast
  ring

/-- Rounding `round1` fixes integers. -/
theorem round1_intCast (n : ℤ) : round1 ((n : ℚ)) = (n : ℚ) := by
  rw [round1_eq ((n : ℚ)) (n * 10) (by push_cast; ring)]
  push_cast
  ring

/-- Rounding `round2` fixes integral rationals. -/
theorem round2_eq_self (x : ℚ) (n : ℤ) (h : x = (n : ℚ)) : round2 x = x := by
  rw [h]
  exact round2_intCast n

/-- Rounding `round1` fixes integral rationals. -/
theorem round1_eq_self (x : ℚ) (n : ℤ) (h : x = (n : ℚ)) : round1 x = x := by
  rw [h]
  exact round1_intCast n

/-! ### Claims -/

/-- C1.  On a resolved record with `basic_da = 20000`, `hra = 8000`,
`other_allow = 0`, `gross_salary = 28000`, `days_in_month = 30`,
`tds = 0`, effective attendance `present_days = 30` and
`approved_paid_leaves = 0` (any LOP and remaining-leave values), under the
default policies, the deduction calculation yields `pf = 1800` (12% of
20000 capped at 1800), `esi = 0` (prorated gross 28000 exceeds the 21000
threshold), `pt = 200`, `total_deductions = 2000`, prorated
`gross = 28000` and `net_pay = 26000`. -/
theorem deduction_default_case (name empId desig month : String) (lop remaining : PF) :
    (calcCore name empId desig month (pNum 20000) (pNum 8000) (pNum 0) (pNum 28000) 30
        (pNum 0) (pNum 30) (pNum 0) lop remaining defaultPolicies).map
      (fun r => (r.pf, r.esi, r.pt, r.total_deductions, r.gross, r.net_pay))
    = .ok (pNum 1800, pNum 0, pNum 200, pNum 2000, pNum 28000, pNum 26000) := by
  have hdiv : pdivE (pNum 28000) (pNum ((30:ℤ) : ℚ)) = .ok (some (28000 / ((30:ℤ) : ℚ))) := by
    rw [pNum_def, pNum_def]
    exact pdivE_some _ _ (by norm_num)
  rw [calcCore, hdiv]
  simp only [defaultPolicies, Bool.false_and, if_false, pNum_def, padd_some, pmul_some,
    psub_some, pmin_some, plt_some, ple_some, pround2_some, Bool.false_eq_true, Except.map]
  norm_num
  refine ⟨?_, ?_, ?_, ?_, ?_, ?_⟩
  · exact round2_eq_self _ 1800 (by norm_num)
  · norm_num [pround2_some]
    exact round2_eq_self _ 0 (by norm_num)
  · norm_num [pround2_some]
    exact round2_eq_self _ 200 (by norm_num)
  · norm_num [padd_some, pround2_some]
    exact round2_eq_self _ 2000 (by norm_num)
  · exact round2_eq_self _ 28000 (by norm_num)
  · norm_num [padd_some, psub_some, pround2_some]
    exact round2_eq_self _ 26000 (by norm_num)

/-- C2 fails on the code: when the attendance table has a row matching the
employee id, `calculate_payroll` raises a `TypeError` — the nested `get`
accepts two parameters but the attendance branch passes three arguments —
instead of returning a payroll record.  This theorem evaluates the model
at such an input. -/
theorem attendance_match_raises_typeerror :
    calculate_payroll "January 2026" defaultPolicies
        [[("Emp Code", Cell.str "E001"), ("Present", Cell.int 25)]]
        [("Name", Cell.str "Asha"), ("Emp Code", Cell.str "E001"),
         ("Basic", Cell.int 20000), ("HRA", Cell.int 8000)]
      = .error (.typeError "get() takes from 1 to 2 positional arguments but 3 were given") :=
  rfl

/-- C7.  The column resolver scans the columns in their original order and
returns the value of the first column whose label contains some keyword as
a case-insensitive substring; it returns the supplied default when no
label matches; in particular, for a row with columns
`["Emp Code", "Basic+DA", "HRA"]` and keywords `["basic"]`, it returns the
`"Basic+DA"` value. -/
theorem resolve_first_match_spec :
    (∀ (pre : Row) (l : String) (v : Cell) (post : Row) (kws : List String) (d : Cell),
        (∀ p ∈ pre, labelMatches kws p.1 = false) → labelMatches kws l = true →
        resolve (pre ++ (l, v) :: post) kws d = v) ∧
    (∀ (row : Row) (kws : List String) (d : Cell),
        (∀ p ∈ row, labelMatches kws p.1 = false) → resolve row kws d = d) ∧
    (∀ c1 c2 c3 d : Cell,
        resolve [("Emp Code", c1), ("Basic+DA", c2), ("HRA", c3)] ["basic"] d = c2) := by
  refine ⟨?_, ?_, ?_⟩
  · intro pre l v post kws d hpre hl
    rw [resolve_eq_findCol, findCol_first pre l v post kws hpre hl]
    rfl
  · intro row kws d h
    rw [resolve_eq_findCol, findCol_no_match row kws h]
    rfl
  · intro c1 c2 c3 d
    have h1 : labelMatches ["basic"] "Emp Code" = false := by decide
    have h2 : labelMatches ["basic"] "Basic+DA" = true := by decide
    simp [resolve, h1, h2]

/-- Witness for C7: the first part applied to the row
`[("Emp Code", _), ("Basic+DA", _), ("HRA", _)]` split around its
matching column. -/
theorem resolve_first_match_spec_witness :
    resolve ([("Emp Code", Cell.str "E7")] ++
        ("Basic+DA", Cell.int 20000) :: [("HRA", Cell.int 8000)])
      ["basic"] (Cell.int 0) = Cell.int 20000 :=
  resolve_first_match_spec.1 [("Emp Code", Cell.str "E7")] "Basic+DA"
    (Cell.int 20000) [("HRA", Cell.int 8000)] ["basic"] (Cell.int 0)
    (by decide) (by decide)

/-- C3, counterexample.  A `basic` column whose cell is Python `None`
makes the numeric resolution raise `TypeError` instead of yielding the
default 0; a NaN cell yields NaN, not the default; a non-numeric string
raises `ValueError`; and on the `daysInMonth` field — resolved through
`int()` rather than `float()` — a NaN cell raises `ValueError` instead of
yielding the default 31. -/
theorem numeric_default_claim_cex :
    getFloat [("Basic", Cell.none_)] ["basic", "basic + da"] (pNum 0)
        = .error (.typeError "float() argument must be a string or a real number, not NoneType") ∧
    getFloat [("Basic", Cell.nan)] ["basic", "basic + da"] (pNum 0) = .ok Option.none ∧
    Option.none ≠ pNum 0 ∧
    getFloat [("Basic", Cell.str "abc")] ["basic", "basic + da"] (pNum 0)
        = .error (.valueError "could not convert string to float: abc") ∧
    getIntD [("Days in Month", Cell.nan)] ["days in month", "month days"] 31
        = .error (.valueError "cannot convert float NaN to integer") := by
  refine ⟨rfl, rfl, by decide, rfl, rfl⟩

/-- C3, amended.  When no column label matches the keywords, numeric
resolution does return the supplied numeric default (0 for the `float`
fields, 31 for `daysInMonth`); but when the first matching cell is
reached, its value is coerced with no sanitization.  The five float
fields (`basic_da`, `hra`, `other_allow`, `gross_salary`, `tds`) go
through `float()`: `None` raises `TypeError`, an unparsable string raises
`ValueError`, and NaN propagates as NaN rather than being replaced by the
default.  The `daysInMonth` field goes through `int()`: there a NaN cell
raises `ValueError`, `None` raises `TypeError`, and a non-integer string
raises `ValueError`. -/
theorem numeric_default_amended :
    (∀ (row : Row) (kws : List String) (d : PF),
        (∀ p ∈ row, labelMatches kws p.1 = false) → getFloat row kws d = .ok d) ∧
    (∀ (pre : Row) (l : String) (c : Cell) (post : Row) (kws : List String) (d : PF),
        (∀ p ∈ pre, labelMatches kws p.1 = false) → labelMatches kws l = true →
        getFloat (pre ++ (l, c) :: post) kws d = pyFloat c) ∧
    (pyFloat Cell.none_
        = .error (.typeError "float() argument must be a string or a real number, not NoneType")) ∧
    (pyFloat Cell.nan = .ok Option.none) ∧
    (∀ s : String, parseFloat s = Option.none →
        pyFloat (Cell.str s) = .error (.valueError ("could not convert string to float: " ++ s))) ∧
    (∀ (row : Row) (kws : List String) (d : ℤ),
        (∀ p ∈ row, labelMatches kws p.1 = false) → getIntD row kws d = .ok d) ∧
    (∀ (pre : Row) (l : String) (c : Cell) (post : Row) (kws : List String) (d : ℤ),
        (∀ p ∈ pre, labelMatches kws p.1 = false) → labelMatches kws l = true →
        getIntD (pre ++ (l, c) :: post) kws d = pyInt c) ∧
    (pyInt Cell.nan = .error (.valueError "cannot convert float NaN to integer")) ∧
    (pyInt Cell.none_
        = .error (.typeError "int() argument must be a string or a real number, not NoneType")) ∧
    (∀ s : String, parseInt s = Option.none →
        pyInt (Cell.str s)
          = .error (.valueError ("invalid literal for int() with base 10: " ++ s))) := by
  refine ⟨?_, ?_, rfl, rfl, ?_, ?_, ?_, rfl, rfl, ?_⟩
  · intro row kws d h
    rw [getFloat, findCol_no_match row kws h]
  · intro pre l c post kws d hpre hl
    rw [getFloat, findCol_first pre l c post kws hpre hl]
  · intro s hs
    simp [pyFloat, hs]
  · intro row kws d h
    rw [getIntD, findCol_no_match row kws h]
  · intro pre l c post kws d hpre hl
    rw [getIntD, findCol_first pre l c post kws hpre hl]
  · intro s hs
    simp [pyInt, hs]

/-- Witness for C3 (amended): the no-match and first-match branches on
concrete rows, for both the `float()` path and the `int()` path of the
`daysInMonth` field. -/
theorem numeric_default_amended_witness :
    getFloat [("Emp Code", Cell.str "E7")] ["basic", "basic + da"] (pNum 0) = .ok (pNum 0) ∧
    getFloat ([("Emp Code", Cell.str "E7")] ++ ("Basic", Cell.int 20000) :: [])
        ["basic", "basic + da"] (pNum 0) = pyFloat (Cell.int 20000) ∧
    getIntD [("Emp Code", Cell.str "E7")] ["days in month", "month days"] 31 = .ok 31 ∧
    getIntD ([("Emp Code", Cell.str "E7")] ++ ("Days in Month", Cell.int 30) :: [])
        ["days in month", "month days"] 31 = pyInt (Cell.int 30) :=
  ⟨numeric_default_amended.1 [("Emp Code", Cell.str "E7")] ["basic", "basic + da"] (pNum 0)
      (by decide),
   numeric_default_amended.2.1 [("Emp Code", Cell.str "E7")] "Basic" (Cell.int 20000) []
      ["basic", "basic + da"] (pNum 0) (by decide) (by decide),
   numeric_default_amended.2.2.2.2.2.1 [("Emp Code", Cell.str "E7")]
      ["days in month", "month days"] 31 (by decide),
   numeric_default_amended.2.2.2.2.2.2.1 [("Emp Code", Cell.str "E7")] "Days in Month"
      (Cell.int 30) [] ["days in month", "month days"] 31 (by decide) (by decide)⟩

/-- C4.  When more than one sheet qualifies as the salary table, the
loader's scan selects the last qualifying sheet in workbook order (the
first qualifying sheet of the reversed sheet list); likewise the last
sheet whose name contains `atten` case-insensitively is used as the
attendance table. -/
theorem last_qualifying_sheet_wins (wb : List Sheet) :
    (1 < (wb.filter qualifiesSalary).length →
        pickLast qualifiesSalary wb = wb.reverse.find? qualifiesSalary) ∧
    (1 < (wb.filter isAttendanceSheet).length →
        pickLast isAttendanceSheet wb = wb.reverse.find? isAttendanceSheet) :=
  ⟨fun _ => pickLast_eq_last qualifiesSalary wb,
   fun _ => pickLast_eq_last isAttendanceSheet wb⟩

/-- Witness for C4: a workbook with two qualifying salary sheets and two
attendance-named sheets; the scan picks the later sheet of each kind. -/
theorem last_qualifying_sheet_wins_witness :
    (1 < (([⟨"SalaryA", ["Basic"], []⟩, ⟨"Attendance", ["P"], []⟩,
           ⟨"attendance2", ["P"], []⟩, ⟨"SalaryB", ["Gross"], []⟩] :
          List Sheet).filter qualifiesSalary).length) ∧
    pickLast qualifiesSalary
        [⟨"SalaryA", ["Basic"], []⟩, ⟨"Attendance", ["P"], []⟩,
         ⟨"attendance2", ["P"], []⟩, ⟨"SalaryB", ["Gross"], []⟩]
      = ([⟨"SalaryA", ["Basic"], []⟩, ⟨"Attendance", ["P"], []⟩,
          ⟨"attendance2", ["P"], []⟩,
          ⟨"SalaryB", ["Gross"], []⟩] : List Sheet).reverse.find? qualifiesSalary ∧
    pickLast qualifiesSalary
        [⟨"SalaryA", ["Basic"], []⟩, ⟨"Attendance", ["P"], []⟩,
         ⟨"attendance2", ["P"], []⟩, ⟨"SalaryB", ["Gross"], []⟩]
      = some ⟨"SalaryB", ["Gross"], []⟩ ∧
    pickLast isAttendanceSheet
        [⟨"SalaryA", ["Basic"], []⟩, ⟨"Attendance", ["P"], []⟩,
         ⟨"attendance2", ["P"], []⟩, ⟨"SalaryB", ["Gross"], []⟩]
      = some ⟨"attendance2", ["P"], []⟩ :=
  ⟨by decide,
   (last_qualifying_sheet_wins
      [⟨"SalaryA", ["Basic"], []⟩, ⟨"Attendance", ["P"], []⟩,
       ⟨"attendance2", ["P"], []⟩, ⟨"SalaryB", ["Gross"], []⟩]).1 (by decide),
   by decide, by decide⟩

/-- C5, counterexample.  For a workbook with no qualifying salary sheet,
`load_uploaded_excel` swallows the internal "no salary data" `ValueError`
and returns `False` with the state unchanged; the service wrapper then
raises a *different*, generic message, so the typed "no salary data"
failure is never surfaced to the caller. -/
theorem load_error_surfaced_cex :
    loadInner [⟨"Sheet1", ["Foo"], []⟩]
        = .error (.valueError "No salary data found in uploaded file.") ∧
    load_uploaded_excel (initAgent "payslips") [⟨"Sheet1", ["Foo"], []⟩]
        = (initAgent "payslips", false) ∧
    upload_excel_load (initAgent "payslips") [⟨"Sheet1", ["Foo"], []⟩]
        = .error (.valueError "Failed to load Excel file. Check format.") ∧
    ("Failed to load Excel file. Check format." : String)
        ≠ "No salary data found in uploaded file." :=
  ⟨rfl, rfl, rfl, by decide⟩

/-- C5, amended.  For every workbook with no qualifying salary sheet, the
loader body raises `ValueError("No salary data found in uploaded file.")`,
but `load_uploaded_excel` catches every exception and reports plain
`False` (state unchanged); the service's upload step turns that `False`
into the generic `ValueError("Failed to load Excel file. Check format.")`
— the specific "no salary data" error is swallowed, not surfaced. -/
theorem load_error_swallowed (ag : PayrollAgent) (wb : List Sheet)
    (h : pickLast qualifiesSalary wb = Option.none) :
    loadInner wb = .error (.valueError "No salary data found in uploaded file.") ∧
    load_uploaded_excel ag wb = (ag, false) ∧
    upload_excel_load ag wb
        = .error (.valueError "Failed to load Excel file. Check format.") := by
  have hInner : loadInner wb
      = .error (.valueError "No salary data found in uploaded file.") := by
    rw [loadInner, h]
  refine ⟨hInner, ?_, ?_⟩
  · rw [load_uploaded_excel, hInner]
  · rw [upload_excel_load, load_uploaded_excel, hInner]
    rfl

/-- Witness for C5 (amended): the one-sheet workbook with no salary-like
column label. -/
theorem load_error_swallowed_witness :
    loadInner [⟨"Sheet1", ["Foo"], []⟩]
        = .error (.valueError "No salary data found in uploaded file.") ∧
    load_uploaded_excel (initAgent "out") [⟨"Sheet1", ["Foo"], []⟩]
        = (initAgent "out", false) ∧
    upload_excel_load (initAgent "out") [⟨"Sheet1", ["Foo"], []⟩]
        = .error (.valueError "Failed to load Excel file. Check format.") :=
  load_error_swallowed (initAgent "out") [⟨"Sheet1", ["Foo"], []⟩] rfl

/-- C8, counterexample.  The note text `"encash pf cap 2000"` contains
`"pf cap 2000"`, and applying it does set the PF cap to 2000 — but it also
flips `leave_encashment` from `false` to `true`, so not every other policy
field is left unchanged. -/
theorem policy_notes_frame_cex :
    strContains "encash pf cap 2000" "pf cap 2000" = true ∧
    (update_policy defaultPolicies "encash pf cap 2000").pf_cap = 2000 ∧
    (update_policy defaultPolicies "encash pf cap 2000").leave_encashment = true ∧
    defaultPolicies.leave_encashment = false := by
  refine ⟨by decide, by decide, by decide, rfl⟩

/-- C8, amended.  For every policy configuration, applying the free-text
notes `"pf cap 2000"` (exactly — the text contains no encashment keyword,
no `"pt 250"`, and `2000` is the first and entire pf-cap number) sets
`pf_cap` to 2000 and leaves every other policy field unchanged.  For
general note texts merely *containing* `"pf cap 2000"` this fails: other
keywords in the same text also fire, and the leftmost `pf cap <int>` match
wins. -/
theorem policy_notes_pf_cap_frame (p : Policies) :
    (update_policy p "pf cap 2000").pf_cap = 2000 ∧
    (update_policy p "pf cap 2000").pf_rate = p.pf_rate ∧
    (update_policy p "pf cap 2000").esi_employee_rate = p.esi_employee_rate ∧
    (update_policy p "pf cap 2000").esi_threshold = p.esi_threshold ∧
    (update_policy p "pf cap 2000").pt_amount = p.pt_amount ∧
    (update_policy p "pf cap 2000").leave_encashment = p.leave_encashment ∧
    (update_policy p "pf cap 2000").encash_max_days = p.encash_max_days := by
  have h1 : strContains (strLower "pf cap 2000") "encash" = false := by decide
  have h2 : strContains (strLower "pf cap 2000") "leave encashment" = false := by decide
  have h3 : strContains (strLower "pf cap 2000") "pt 250" = false := by decide
  have h4 : searchPfCap (strLower "pf cap 2000").data = some 2000 := by decide
  simp [update_policy, String.toList, h1, h2, h3, h4]

/-- C6.  ESI boundary: whenever the prorated gross equals the policy's
ESI threshold exactly, ESI is applied (the comparison is inclusive) and
equals prorated gross times the ESI rate; PT boundary: whenever the
prorated gross equals exactly 15000, professional tax is zero (the
comparison is a strict `>` against the fixed constant 15000), for every
policy configuration. -/
theorem esi_inclusive_pt_strict_boundary :
    (∀ (pol : Policies) (name empId desig month : String) (basic hra other lop : PF)
       (gross tds present approved remaining : ℚ) (days : ℤ),
       days ≠ 0 →
       gross / (days : ℚ) * (present + approved) = pol.esi_threshold →
       (calcCore name empId desig month basic hra other (pNum gross) days (pNum tds)
           (pNum present) (pNum approved) lop (pNum remaining) pol).map (fun r => r.esi)
         = .ok (pNum (round2 (pol.esi_threshold * pol.esi_employee_rate)))) ∧
    (∀ (pol : Policies) (name empId desig month : String) (basic hra other lop : PF)
       (gross tds present approved remaining : ℚ) (days : ℤ),
       days ≠ 0 →
       gross / (days : ℚ) * (present + approved) = 15000 →
       (calcCore name empId desig month basic hra other (pNum gross) days (pNum tds)
           (pNum present) (pNum approved) lop (pNum remaining) pol).map (fun r => r.pt)
         = .ok (pNum 0)) := by
  constructor
  · intro pol name empId desig month basic hra other lop gross tds present approved remaining days hd hE
    have hdq : ((days : ℤ) : ℚ) ≠ 0 := Int.cast_ne_zero.mpr hd
    rw [calcCore, pNum_def, pNum_def, pdivE_some _ _ hdq]
    simp only [pNum_def, padd_some, pmul_some, ple_some, plt_some, pround2_some, Except.map, hE]
    simp [le_refl, pround2_some]
  · intro pol name empId desig month basic hra other lop gross tds present approved remaining days hd hE
    have hdq : ((days : ℤ) : ℚ) ≠ 0 := Int.cast_ne_zero.mpr hd
    rw [calcCore, pNum_def, pNum_def, pdivE_some _ _ hdq]
    have h0 : round2 0 = 0 := by
      simpa using round2_intCast 0
    simp only [pNum_def, padd_some, pmul_some, ple_some, plt_some, pround2_some, Except.map, hE]
    simp [lt_irrefl, pround2_some, h0]

/-- Witness for C6: under the default policies, a prorated gross of
exactly 21000 (the threshold) still pays ESI, and a prorated gross of
exactly 15000 pays no professional tax. -/
theorem esi_inclusive_pt_strict_boundary_witness :
    (calcCore "Asha" "E001" "0" "January 2026" (pNum 0) (pNum 0) (pNum 0) (pNum 21000) 30
        (pNum 0) (pNum 30) (pNum 0) (pNum 0) (pNum 12) defaultPolicies).map (fun r => r.esi)
      = .ok (pNum (round2 (defaultPolicies.esi_threshold * defaultPolicies.esi_employee_rate))) ∧
    (calcCore "Asha" "E001" "0" "January 2026" (pNum 0) (pNum 0) (pNum 0) (pNum 15000) 30
        (pNum 0) (pNum 30) (pNum 0) (pNum 0) (pNum 12) defaultPolicies).map (fun r => r.pt)
      = .ok (pNum 0) :=
  ⟨esi_inclusive_pt_strict_boundary.1 defaultPolicies "Asha" "E001" "0" "January 2026"
      (pNum 0) (pNum 0) (pNum 0) (pNum 0) 21000 0 30 0 12 30 (by decide)
      (by norm_num [defaultPolicies]),
   esi_inclusive_pt_strict_boundary.2 defaultPolicies "Asha" "E001" "0" "January 2026"
      (pNum 0) (pNum 0) (pNum 0) (pNum 0) 15000 0 30 0 12 30 (by decide)
      (by norm_num)⟩

/-- A concrete payroll record used to exercise the renderer. -/
def sampleResult : PayrollResult :=
  { emp_id := "E001", name := "Asha", designation := "0", month := "January 2026"
    present_days := pNum 30, approved_paid_leaves := pNum 0, lop_days := pNum 0
    payable_days := pNum 30, remaining_leaves := pNum 12
    basic_da := pNum 20000, hra := pNum 8000, other_allow := pNum 0
    gross := pNum 28000, pf := pNum 1800, esi := pNum 0, pt := pNum 200
    tds := pNum 0, encashment := pNum 0, total_deductions := pNum 2000
    net_pay := pNum 26000 }

/-- C9, counterexample.  The rendered document's filename is
`payslip_<employeeId>_<month with spaces as underscores>.pdf` — not
`statement_<employeeId>_<...>.<ext>` as the claim words it. -/
theorem render_path_claim_cex :
    payslipFilename "E001" "January 2026" = "payslip_E001_January_2026.pdf" ∧
    payslipFilename "E001" "January 2026" ≠ "statement_E001_January_2026.pdf" ∧
    (generate_payslip_pdf "payslips" sampleResult []).1
        = "payslips/payslip_E001_January_2026.pdf" :=
  ⟨rfl, by decide, rfl⟩

/-- C9, amended.  Rendering writes the document to the deterministic path
`<dir>/payslip_<employeeId>_<month with spaces replaced by
underscores>.pdf`, overwriting any existing file with that name: after a
write, reading that path yields the new document, and re-running the
renderer for a record with the same employee id and month replaces the
prior document at that same path. -/
theorem render_path_deterministic_overwrite (fs : FileSystem) (dir : String)
    (r r2 : PayrollResult) :
    (generate_payslip_pdf dir r fs).1 = payslipPath dir r.emp_id r.month ∧
    payslipFilename r.emp_id r.month
        = "payslip_" ++ r.emp_id ++ "_" ++ replaceChar r.month ' ' '_' ++ ".pdf" ∧
    fsRead (generate_payslip_pdf dir r fs).2 (payslipPath dir r.emp_id r.month) = some r ∧
    (r2.emp_id = r.emp_id → r2.month = r.month →
        fsRead (generate_payslip_pdf dir r2 (generate_payslip_pdf dir r fs).2).2
          (payslipPath dir r.emp_id r.month) = some r2) := by
  refine ⟨rfl, rfl, ?_, ?_⟩
  · simp [generate_payslip_pdf, fsRead]
  · intro hid hmonth
    simp [generate_payslip_pdf, fsRead, payslipPath, payslipFilename, hid, hmonth]

/-- Witness for C9 (amended): writing a second record with the same id and
month on top of the first replaces it at the shared path. -/
theorem render_path_deterministic_overwrite_witness :
    fsRead (generate_payslip_pdf "payslips" { sampleResult with net_pay := pNum 25000 }
        (generate_payslip_pdf "payslips" sampleResult []).2).2
      (payslipPath "payslips" sampleResult.emp_id sampleResult.month)
      = some { sampleResult with net_pay := pNum 25000 } :=
  (render_path_deterministic_overwrite [] "payslips" sampleResult
    { sampleResult with net_pay := pNum 25000 }).2.2.2 rfl rfl

/-- C10.  Before any successful workbook load the agent's data mapping is
empty, so both payslip-generation operations raise the untyped
`KeyError('salary')` — not a typed engine error: for every agent state
with no loaded data (the freshly constructed agent in particular), both
operations return exactly that error. -/
theorem compute_before_load_keyerror (month dir emp_id : String) :
    generate_single_payslip month (initAgent dir) emp_id = .error (.keyError "salary") ∧
    generate_all_payslips month (initAgent dir) = .error (.keyError "salary") ∧
    (∀ ag : PayrollAgent, ag.loaded = Option.none →
        generate_single_payslip month ag emp_id = .error (.keyError "salary") ∧
        generate_all_payslips month ag = .error (.keyError "salary")) ∧
    (∀ m : String, (PyError.keyError "salary") ≠ .valueError m) := by
  refine ⟨rfl, rfl, ?_, ?_⟩
  · intro ag h
    constructor
    · rw [generate_single_payslip, h]
    · rw [generate_all_payslips, h]
  · intro m
    exact fun hc => PyError.noConfusion hc

/-- Witness for C10: the inner universally-quantified part applied to the
freshly constructed agent, whose `loaded` field is definitionally empty. -/
theorem compute_before_load_keyerror_witness :
    generate_single_payslip "January 2026" (initAgent "payslips") "E001"
        = .error (.keyError "salary") ∧
    generate_all_payslips "January 2026" (initAgent "payslips")
        = .error (.keyError "salary") :=
  (compute_before_load_keyerror "January 2026" "payslips" "E001").2.2.1
    (initAgent "payslips") rfl

end Payroll
